import Mathlib

/-!
Shallow embedding of the OHS27 ACH auto-email Map/Reduce script
(src/unnamed/part_000, tsc_mr_ohs27_auto_ach_email.js).

The script has four entry points: getInputData (parameter validation and
search load), map (per-record normalization with SKIPPED_RECORDS and
ERROR_RECORDS side channels), reduce (per-group voucher rendering, email
send and notified-flag persistence), and summarize (report aggregation).
External collaborators (search, render, email, record store) are modelled
as explicit oracles passed in an environment record; their outcomes are
data, not effects.
-/

namespace OHS27

/-- A search-result field as NetSuite returns it: an object with a `value`
and a `text` component.  An absent field is `Option.none`; an empty string
models a JS falsy value. -/
structure FieldVal where
  value : String
  text : String
deriving DecidableEq, Repr

/-- The `values` object of one parsed search result row, with the fields
the map stage reads: `account`, `entity`, `trandate`, `postingperiod`,
`tranid` and the joined column `email.vendor` (here `vendorEmail`).
Plain-string fields use `""` for a JS `undefined`/empty (falsy) value. -/
structure RawValues where
  account : Option FieldVal
  entity : Option FieldVal
  trandate : String
  tranid : String
  postingperiod : Option FieldVal
  vendorEmail : String
deriving DecidableEq, Repr

/-- JS `s || d` for strings: the left operand unless it is falsy (empty). -/
def jsOr (s d : String) : String := if s = "" then d else s

/-- The test `!values.f || !values.f.value` from map lines 98-99: the field
is absent or its `value` component is falsy. -/
def fieldMissing (o : Option FieldVal) : Prop :=
  match o with
  | none => True
  | some f => f.value = ""

instance (o : Option FieldVal) : Decidable (fieldMissing o) :=
  match o with
  | none => isTrue trivial
  | some f => inferInstanceAs (Decidable (f.value = ""))

/-- Map lines 95-102: collect the names of all missing required fields, in
source order, without short-circuiting. -/
def missingFields (v : RawValues) : List String :=
  (if fieldMissing v.account then ["account"] else []) ++
  (if fieldMissing v.entity then ["entity"] else []) ++
  (if v.trandate = "" then ["transaction date"] else []) ++
  (if v.tranid = "" then ["transaction ID"] else []) ++
  (if v.vendorEmail = "" then ["vendor email"] else [])

/-- The canonical normalized unit built at map lines 131-139. -/
structure PaymentOrder where
  orderId : String
  accountId : String
  orderDate : String
  postingPeriod : String
  orderNumber : String
  entity : String
  vendorEmail : String
deriving DecidableEq, Repr

/-- One side-channel record as written at map lines 114-122 (the
`missingFields` list is present only on skipped entries; error entries
would leave it empty). -/
structure BucketEntry where
  recordId : String
  tranid : String
  entity : String
  accountId : String
  entityId : String
  errorNote : String
  missingFields : List String
deriving DecidableEq, Repr

/-- A value travelling between stages: a single bucket entry (map to
reduce under a reserved key), a normalized order (map to reduce under a
group key), or the combined bucket array (reduce to summarize). -/
inductive MRValue where
  | entry (e : BucketEntry)
  | order (o : PaymentOrder)
  | entryList (es : List BucketEntry)
deriving DecidableEq, Repr

/-- The JS exception that escapes the map stage: the catch block at lines
147-166 reads the identifier `values`, which was declared with `const`
inside the try block and is therefore not in scope in the catch block, so
evaluating the write payload throws `ReferenceError: values is not
defined`. -/
inductive JsError where
  | referenceError
deriving DecidableEq, Repr

/-- Outcome of one map invocation: either a list of `mapContext.write`
calls performed, or an exception propagating out of the function. -/
inductive MapOutcome where
  | writes (ops : List (String × MRValue))
  | raised (e : JsError)
deriving DecidableEq, Repr

/-- The writes performed by a map outcome (none when it raised). -/
def outcomeWrites : MapOutcome → List (String × MRValue)
  | .writes l => l
  | .raised _ => []

/-- Shape of `mapContext.value` as the map stage sees it: not parseable as
JSON (`JSON.parse` throws), parseable but with no `values` object (line 98
then throws reading a property of `undefined`), or a well-formed row. -/
inductive MapValue where
  | unparseable
  | noValues
  | parsed (v : RawValues)
deriving DecidableEq, Repr

/-- `values.account.value`, read only on the valid path where the account
field is present and non-empty. -/
def accountValue (v : RawValues) : String := v.account.elim "" FieldVal.value

/-- `values.entity.value`, read only on the valid path. -/
def entityValue (v : RawValues) : String := v.entity.elim "" FieldVal.value

/-- The skipped-record payload written at map lines 114-122, with the
`|| 'N/A'` fallbacks of the source. -/
def mkSkippedEntry (recordId : String) (v : RawValues) (missing : List String) : BucketEntry :=
  { recordId := recordId
    tranid := jsOr v.tranid "N/A"
    entity := match v.entity with | none => "N/A" | some f => jsOr f.text "N/A"
    accountId := match v.account with | none => "N/A" | some f => jsOr f.value "N/A"
    entityId := match v.entity with | none => "N/A" | some f => jsOr f.value "N/A"
    errorNote := "Missing required fields: " ++ String.intercalate ", " missing
    missingFields := missing }

/-- The normalized order object built at map lines 131-139.  On this path
validation guarantees `account` and `entity` are present, so the
`Option.elim` defaults are never read. -/
def normalizedOrder (recordId : String) (v : RawValues) : PaymentOrder :=
  { orderId := recordId
    accountId := accountValue v ++ "_" ++ entityValue v
    orderDate := v.trandate
    postingPeriod := match v.postingperiod with | none => "" | some f => f.text
    orderNumber := v.tranid
    entity := v.entity.elim "" FieldVal.text
    vendorEmail := jsOr v.vendorEmail "" }

/-- The map entry point (lines 85-167).  A record that fails validation is
written to SKIPPED_RECORDS and nothing else; a valid record is written
under its `accountId_vendorId` key.  Any exception while parsing or
reading the record enters the catch block, which itself throws
`ReferenceError` (see `JsError`), so the exception leaves the function and
no ERROR_RECORDS write ever happens. -/
def map (key : String) (val : MapValue) : MapOutcome :=
  match val with
  | .unparseable => .raised .referenceError
  | .noValues => .raised .referenceError
  | .parsed v =>
    let missing := missingFields v
    if missing.isEmpty then
      .writes [(accountValue v ++ "_" ++ entityValue v, .order (normalizedOrder key v))]
    else
      .writes [("SKIPPED_RECORDS", .entry (mkSkippedEntry key v missing))]

/-- Character-level model of JS `String.prototype.split` with a one-char
separator. -/
def splitCh (sep : Char) : List Char → List (List Char)
  | [] => [[]]
  | c :: cs =>
    if c = sep then [] :: splitCh sep cs
    else
      match splitCh sep cs with
      | [] => [[c]]
      | s :: ss => (c :: s) :: ss

/-- JS `key.split('_')` (reduce lines 207-208). -/
def jsSplit (s : String) : List String := (splitCh '_' s.data).map String.mk

/-- `reduceContext.key.split('_')[0]` (reduce line 208). -/
def parsedAccountId (key : String) : String := (jsSplit key).getD 0 ""

/-- `reduceContext.key.split('_')[1]` (reduce line 207). -/
def parsedVendorId (key : String) : String := (jsSplit key).getD 1 ""

/-- Reduce line 189: the two reserved side-channel keys. -/
def isReserved (k : String) : Bool :=
  k == "SKIPPED_RECORDS" || k == "ERROR_RECORDS"

/-- JSON.parse of a reduce value under a reserved key, which by pipeline
construction is a bucket entry. -/
def entryOf : MRValue → Option BucketEntry
  | .entry e => some e
  | _ => none

/-- Reduce lines 214-219: `transactionsId`, the `orderId` of every parsed
order value of the group, in arrival order. -/
def ordersOf (values : List MRValue) : List String :=
  values.filterMap (fun v => match v with | .order o => some o.orderId | _ => none)

/-- The email object assembled at reduce lines 241-247. -/
structure EmailObj where
  author : String
  recipients : String
  subject : String
  body : String
  attachments : List String
deriving DecidableEq, Repr

/-- Outcomes of the external collaborators for one run: the account-keyed
template mapping search (none models the not-found throw of
`searchRelatedEmailTemplate`), the render outcome per transaction, the
email transport outcome, and the record-save outcome per transaction. -/
structure ReduceEnv where
  templateLookup : String → Option String
  authorId : String
  mergeSubject : String
  mergeBody : String
  renderOk : String → Bool
  sendOk : Bool
  saveOk : String → Bool

/-- Observable effects of one reduce invocation: writes to the summarize
stage, successfully sent emails, transactions whose notified flag was set
and saved, and `log.error` titles in emission order. -/
structure ReduceEffects where
  output : List (String × MRValue)
  sentEmails : List EmailObj
  flagUpdates : List String
  logs : List String
deriving DecidableEq, Repr

/-- `generateIndividualPaymentVoucher` (lines 435-477): one PDF file named
`ACH_Payment_<id>.pdf` per transaction whose render succeeds; a render
failure is caught per transaction and that voucher is omitted. -/
def generateIndividualPaymentVoucher (renderOk : String → Bool) (transactionIds : List String) : List String :=
  transactionIds.filterMap
    (fun t => if renderOk t then some ("ACH_Payment_" ++ t ++ ".pdf") else none)

/-- The `log.error` titles emitted inside `generateIndividualPaymentVoucher`
for each failing render, in order (line 472). -/
def renderFailureLogs (renderOk : String → Bool) (transactionIds : List String) : List String :=
  (transactionIds.filter (fun t => !renderOk t)).map
    (fun t => "Error generating PDF for transaction " ++ t)

/-- The flag-update loop at reduce lines 254-265: process transactions in
order, saving each, until a save fails; a failure throws out of the loop,
so the result is the successfully saved prefix together with the failing
transaction (none when every save succeeded). -/
def applySaves (saveOk : String → Bool) : List String → List String × Option String
  | [] => ([], none)
  | t :: ts =>
    if saveOk t then
      let r := applySaves saveOk ts
      (t :: r.1, r.2)
    else
      ([], some t)

/-- The reduce entry point (lines 184-273).  Reserved keys are passed
through combined into one array.  For an ordinary key, the template
lookup throws when no mapping exists; that throw is logged in
`searchRelatedEmailTemplate` and again by the outer catch, and the group
produces no email, no flag update and no output.  Otherwise vouchers are
rendered (render failures logged and omitted), the email is sent, and on
send success the flag loop runs; a send failure or a save failure is
caught by the inner catch, which only logs `sendEmail`. -/
def reduce (env : ReduceEnv) (key : String) (values : List MRValue) : ReduceEffects :=
  if isReserved key then
    { output := [(key, .entryList (values.filterMap entryOf))]
      sentEmails := []
      flagUpdates := []
      logs := [] }
  else
    let accountId := parsedAccountId key
    let vendorId := parsedVendorId key
    match env.templateLookup accountId with
    | none =>
      { output := []
        sentEmails := []
        flagUpdates := []
        logs := ["searchRelatedEmailTemplate", "reduce"] }
    | some _templateId =>
      let transactionsId := ordersOf values
      let pdfFiles := generateIndividualPaymentVoucher env.renderOk transactionsId
      let renderLogs := renderFailureLogs env.renderOk transactionsId
      let emailObj : EmailObj :=
        { author := env.authorId
          recipients := vendorId
          subject := env.mergeSubject
          body := env.mergeBody
          attachments := pdfFiles }
      if env.sendOk then
        let r := applySaves env.saveOk transactionsId
        { output := []
          sentEmails := [emailObj]
          flagUpdates := r.1
          logs := renderLogs ++ (match r.2 with | none => [] | some _ => ["sendEmail"]) }
      else
        { output := []
          sentEmails := []
          flagUpdates := []
          logs := renderLogs ++ ["sendEmail"] }

/-- All writes the reduce stage hands to summarize, over a list of
key-grouped inputs (the shuffle output of the map stage). -/
def runReduceOutput (env : ReduceEnv) (groups : List (String × List MRValue)) : List (String × MRValue) :=
  groups.flatMap (fun g => (reduce env g.1 g.2).output)

/-- Per-group effects of a whole reduce stage, in group order. -/
def runReduceEffects (env : ReduceEnv) (groups : List (String × List MRValue)) : List ReduceEffects :=
  groups.map (fun g => reduce env g.1 g.2)

/-- Mutable state of the summarize iterator (lines 297-314):
`skippedRecords`, `errorRecords` and `processedRecordsCount`. -/
structure SummaryState where
  skippedRecords : List BucketEntry
  errorRecords : List BucketEntry
  processedRecordsCount : Nat
deriving DecidableEq, Repr

/-- JSON.parse of a summarize value as an array of entries. -/
def entriesOf : MRValue → List BucketEntry
  | .entryList es => es
  | .entry e => [e]
  | .order _ => []

/-- One step of the summarize output iterator (lines 302-314): a reserved
key overwrites the corresponding bucket list; any other key increments the
processed count. -/
def summarizeStep (st : SummaryState) (kv : String × MRValue) : SummaryState :=
  if kv.1 = "SKIPPED_RECORDS" then
    { st with skippedRecords := entriesOf kv.2 }
  else if kv.1 = "ERROR_RECORDS" then
    { st with errorRecords := entriesOf kv.2 }
  else
    { st with processedRecordsCount := st.processedRecordsCount + 1 }

/-- The summarize iteration over the whole reduce output. -/
def summarize (output : List (String × MRValue)) : SummaryState :=
  output.foldl summarizeStep { skippedRecords := [], errorRecords := [], processedRecordsCount := 0 }

/-- The counts of the summary report built at lines 317-342. -/
structure SummaryReport where
  successfullyProcessed : Nat
  skippedCount : Nat
  errorCount : Nat
deriving DecidableEq, Repr

/-- The report counts: `successfullyProcessed` is the processed-key count,
the other two are the lengths of the bucket contents. -/
def summaryReport (output : List (String × MRValue)) : SummaryReport :=
  let st := summarize output
  { successfullyProcessed := st.processedRecordsCount
    skippedCount := st.skippedRecords.length
    errorCount := st.errorRecords.length }

/-- The three script parameters read at getInputData lines 28-30; `""`
models an unconfigured (falsy) parameter. -/
structure Config where
  searchId : String
  printTemplateId : String
  authorId : String
deriving DecidableEq, Repr

/-- getInputData lines 40-44: collect the display names of all missing
parameters, in source order. -/
def missingParams (c : Config) : List String :=
  (if c.searchId = "" then ["Eligible ACH Payments Search"] else []) ++
  (if c.printTemplateId = "" then ["Print Template ID"] else []) ++
  (if c.authorId = "" then ["Email Author"] else [])

/-- The operational-report recipient from summarize line 348: a hard-coded
constant, not a script parameter. -/
def OPERATIONAL_REPORT_RECIPIENT : String := "admin@yourcompany.com"

/-- The getInputData entry point (lines 25-67).  `loadResult` is the
outcome of `search.load` on the configured search id.  A missing
parameter throws before the load; a load failure is wrapped; on success
the search handle (its id) is returned. -/
def getInputData (c : Config) (loadResult : Except String Unit) : Except String String :=
  if 0 < (missingParams c).length then
    .error ("Required script parameter(s) not configured: " ++
      String.intercalate ", " (missingParams c))
  else
    match loadResult with
    | .ok _ => .ok c.searchId
    | .error m => .error ("Invalid search ID (" ++ c.searchId ++ "): " ++ m)

/-- The grouping (shuffle) between map and reduce: one group per distinct
key, each holding the values written under that key in arrival order. -/
def groupByKey (l : List (String × MRValue)) : List (String × List MRValue) :=
  ((l.map Prod.fst).dedup).map
    (fun k => (k, (l.filter (fun p => p.1 == k)).map Prod.snd))

/-- Sample normalized order of group 1_2 (account 1, vendor 2). -/
def ordA : PaymentOrder := ⟨"101", "1_2", "1/1/2025", "", "T1", "VendA", "a@b.c"⟩

/-- A second sample order of the same group. -/
def ordB : PaymentOrder := ⟨"102", "1_2", "1/2/2025", "", "T2", "VendA", "a@b.c"⟩

/-- Collaborator outcomes where everything succeeds. -/
def envAllOk : ReduceEnv :=
  { templateLookup := fun _ => some "77"
    authorId := "9"
    mergeSubject := "Subj"
    mergeBody := "Body"
    renderOk := fun _ => true
    sendOk := true
    saveOk := fun _ => true }

/-- Collaborator outcomes where no account has a template mapping. -/
def envNoTemplate : ReduceEnv := { envAllOk with templateLookup := fun _ => none }

/-- Collaborator outcomes where only transaction 101 renders. -/
def envPartialRender : ReduceEnv := { envAllOk with renderOk := fun t => t == "101" }

/-- Collaborator outcomes where saving transaction 101 fails. -/
def envSaveFail : ReduceEnv := { envAllOk with saveOk := fun t => !(t == "101") }

/-- A raw row missing its account field and transaction date. -/
def rawMissing : RawValues := ⟨none, some ⟨"5", "Vend"⟩, "", "T9", none, "a@b.c"⟩

/-- A complete raw row for account 12 and vendor 34. -/
def rawValid : RawValues := ⟨some ⟨"12", "Acct"⟩, some ⟨"34", "Vend"⟩, "1/1/2025", "T1", none, "v@x.com"⟩

/-- A complete raw row whose account id itself contains an underscore. -/
def rawUnderscore : RawValues := ⟨some ⟨"1_2", "Acct"⟩, some ⟨"3", "Vend"⟩, "1/1/2025", "T1", none, "v@x.com"⟩

/-- Sample skipped-bucket entries. -/
def skipE1 : BucketEntry := ⟨"R1", "T1", "VendA", "10", "20", "Missing required fields: vendor email", ["vendor email"]⟩

/-- A second sample skipped-bucket entry. -/
def skipE2 : BucketEntry := ⟨"R2", "T2", "VendB", "10", "21", "Missing required fields: vendor email", ["vendor email"]⟩

/-- A third sample skipped-bucket entry. -/
def skipE3 : BucketEntry := ⟨"R3", "T3", "VendC", "10", "22", "Missing required fields: vendor email", ["vendor email"]⟩

/-- A reduce input with three skipped records and one ordinary group. -/
def groupsMixed : List (String × List MRValue) :=
  [("SKIPPED_RECORDS", [.entry skipE1, .entry skipE2, .entry skipE3]),
   ("1_2", [.order ordA])]

/-! ## Helper lemmas -/

theorem missingFields_mem (v : RawValues) :
    ("account" ∈ missingFields v ↔ fieldMissing v.account) ∧
    ("entity" ∈ missingFields v ↔ fieldMissing v.entity) ∧
    ("transaction date" ∈ missingFields v ↔ v.trandate = "") ∧
    ("transaction ID" ∈ missingFields v ↔ v.tranid = "") ∧
    ("vendor email" ∈ missingFields v ↔ v.vendorEmail = "") := by
  by_cases h1 : fieldMissing v.account <;>
  by_cases h2 : fieldMissing v.entity <;>
  by_cases h3 : v.trandate = "" <;>
  by_cases h4 : v.tranid = "" <;>
  by_cases h5 : v.vendorEmail = "" <;>
  simp [missingFields, h1, h2, h3, h4, h5]

theorem missingFields_ne_nil (v : RawValues)
    (h : fieldMissing v.account ∨ fieldMissing v.entity ∨ v.trandate = "" ∨
      v.tranid = "" ∨ v.vendorEmail = "") :
    missingFields v ≠ [] := by
  intro hnil
  rcases h with h | h | h | h | h <;>
  simp [missingFields, h, List.append_eq_nil] at hnil

theorem splitCh_no_sep (sep : Char) (l : List Char) (h : sep ∉ l) :
    splitCh sep l = [l] := by
  induction l with
  | nil => rfl
  | cons c cs ih =>
    have hc : ¬ c = sep := by
      intro e
      exact h (by simp [e])
    have hcs : sep ∉ cs := fun m => h (List.mem_cons_of_mem _ m)
    simp [splitCh, hc, ih hcs]

theorem splitCh_append_sep (sep : Char) (a b : List Char) (ha : sep ∉ a) :
    splitCh sep (a ++ sep :: b) = a :: splitCh sep b := by
  induction a with
  | nil => simp [splitCh]
  | cons c cs ih =>
    have hc : ¬ c = sep := by
      intro e
      exact ha (by simp [e])
    have hcs : sep ∉ cs := fun m => ha (List.mem_cons_of_mem _ m)
    simp [splitCh, hc, ih hcs]

theorem string_mk_data (s : String) : String.mk s.data = s := by
  cases s
  rfl

theorem jsSplit_pair (a b : String) (ha : '_' ∉ a.data) (hb : '_' ∉ b.data) :
    jsSplit (a ++ "_" ++ b) = [a, b] := by
  have hu : ("_" : String).data = ['_'] := rfl
  have hd : (a ++ "_" ++ b).data = a.data ++ '_' :: b.data := by
    rw [String.data_append, String.data_append, hu]
    simp
  rw [jsSplit, hd, splitCh_append_sep _ _ _ ha, splitCh_no_sep _ _ hb]
  simp [string_mk_data]

theorem applySaves_all_ok (saveOk : String → Bool) :
    ∀ l : List String, (∀ x ∈ l, saveOk x = true) →
      applySaves saveOk l = (l, none) := by
  intro l
  induction l with
  | nil =>
    intro _
    rfl
  | cons x xs ih =>
    intro h
    have hx : saveOk x = true := h x (by simp)
    have hxs := ih (fun y hy => h y (by simp [hy]))
    simp [applySaves, hx, hxs]

theorem applySaves_fail_at (saveOk : String → Bool) (t : String) (post : List String)
    (hfail : saveOk t = false) :
    ∀ pre : List String, (∀ p ∈ pre, saveOk p = true) →
      applySaves saveOk (pre ++ t :: post) = (pre, some t) := by
  intro pre
  induction pre with
  | nil =>
    intro _
    simp [applySaves, hfail]
  | cons p ps ih =>
    intro h
    have hp : saveOk p = true := h p (by simp)
    have hps := ih (fun q hq => h q (by simp [hq]))
    simp [applySaves, hp, hps]

theorem reduce_output_nil (env : ReduceEnv) (key : String) (values : List MRValue)
    (hk : isReserved key = false) :
    (reduce env key values).output = [] := by
  cases htl : env.templateLookup (parsedAccountId key) with
  | none => simp [reduce, hk, htl]
  | some tid =>
    cases hs : env.sendOk with
    | false => simp [reduce, hk, htl, hs]
    | true => simp [reduce, hk, htl, hs]

theorem reduce_output_keys (env : ReduceEnv) (key : String) (values : List MRValue) :
    ∀ kv ∈ (reduce env key values).output, isReserved kv.1 = true := by
  intro kv hkv
  cases hk : isReserved key with
  | true =>
    simp [reduce, hk] at hkv
    subst hkv
    exact hk
  | false =>
    rw [reduce_output_nil env key values hk] at hkv
    simp at hkv

theorem runReduceOutput_keys (env : ReduceEnv) (groups : List (String × List MRValue)) :
    ∀ kv ∈ runReduceOutput env groups, isReserved kv.1 = true := by
  intro kv hkv
  rw [runReduceOutput, List.mem_flatMap] at hkv
  obtain ⟨g, _, hkv⟩ := hkv
  exact reduce_output_keys env g.1 g.2 kv hkv

theorem isReserved_cases {k : String} (h : isReserved k = true) :
    k = "SKIPPED_RECORDS" ∨ k = "ERROR_RECORDS" := by
  simp only [isReserved, Bool.or_eq_true, beq_iff_eq] at h
  exact h

theorem foldl_processed_const :
    ∀ l : List (String × MRValue), (∀ kv ∈ l, isReserved kv.1 = true) →
      ∀ st : SummaryState,
        (l.foldl summarizeStep st).processedRecordsCount = st.processedRecordsCount := by
  intro l
  induction l with
  | nil =>
    intro _ st
    rfl
  | cons kv rest ih =>
    intro h st
    have hkv := h kv (by simp)
    have hrest := ih (fun x hx => h x (by simp [hx])) (summarizeStep st kv)
    rw [List.foldl_cons, hrest]
    rcases isReserved_cases hkv with h1 | h1 <;> simp [summarizeStep, h1]

theorem summaryReport_processed_zero (env : ReduceEnv) (groups : List (String × List MRValue)) :
    (summaryReport (runReduceOutput env groups)).successfullyProcessed = 0 := by
  have h := foldl_processed_const (runReduceOutput env groups)
    (runReduceOutput_keys env groups) ⟨[], [], 0⟩
  simpa [summaryReport, summarize] using h

theorem groupByKey_mem_pair (l : List (String × MRValue)) (k : String) (x y : MRValue)
    (hx : (k, x) ∈ l) (hy : (k, y) ∈ l) :
    ∃ g ∈ groupByKey l, g.1 = k ∧ x ∈ g.2 ∧ y ∈ g.2 := by
  refine ⟨(k, (l.filter (fun p => p.1 == k)).map Prod.snd), ?_, rfl, ?_, ?_⟩
  · rw [groupByKey, List.mem_map]
    refine ⟨k, ?_, rfl⟩
    rw [List.mem_dedup, List.mem_map]
    exact ⟨(k, x), hx, rfl⟩
  · rw [List.mem_map]
    exact ⟨(k, x), List.mem_filter.mpr ⟨hx, by simp⟩, rfl⟩
  · rw [List.mem_map]
    exact ⟨(k, y), List.mem_filter.mpr ⟨hy, by simp⟩, rfl⟩

/-! ## Claim theorems -/

/-- Claim C1: a raw record missing at least one required field (account,
vendor/entity, transaction date, transaction id, vendor email) is written
by the map stage to the SKIPPED_RECORDS key only, with an errorNote that
joins every collected missing-field name (the five membership equivalences
show each missing field, and only those, is collected), and no
PaymentOrder is written under any ordinary group key for that record. -/
theorem C1_missing_fields_skip (key : String) (v : RawValues)
    (h : fieldMissing v.account ∨ fieldMissing v.entity ∨ v.trandate = "" ∨
      v.tranid = "" ∨ v.vendorEmail = "") :
    map key (.parsed v) =
      .writes [("SKIPPED_RECORDS", .entry (mkSkippedEntry key v (missingFields v)))] ∧
    (mkSkippedEntry key v (missingFields v)).errorNote =
      "Missing required fields: " ++ String.intercalate ", " (missingFields v) ∧
    ("account" ∈ missingFields v ↔ fieldMissing v.account) ∧
    ("entity" ∈ missingFields v ↔ fieldMissing v.entity) ∧
    ("transaction date" ∈ missingFields v ↔ v.trandate = "") ∧
    ("transaction ID" ∈ missingFields v ↔ v.tranid = "") ∧
    ("vendor email" ∈ missingFields v ↔ v.vendorEmail = "") ∧
    ∀ k mv, (k, mv) ∈ outcomeWrites (map key (.parsed v)) →
      k = "SKIPPED_RECORDS" ∧ ∀ o : PaymentOrder, mv ≠ .order o := by
  have hne := missingFields_ne_nil v h
  have hmap : map key (.parsed v) =
      .writes [("SKIPPED_RECORDS", .entry (mkSkippedEntry key v (missingFields v)))] := by
    cases hm : missingFields v with
    | nil => exact absurd hm hne
    | cons a as => simp [map, hm]
  refine ⟨hmap, rfl, (missingFields_mem v).1, (missingFields_mem v).2.1,
    (missingFields_mem v).2.2.1, (missingFields_mem v).2.2.2.1,
    (missingFields_mem v).2.2.2.2, ?_⟩
  intro k mv hkv
  rw [hmap] at hkv
  simp only [outcomeWrites, List.mem_singleton, Prod.mk.injEq] at hkv
  obtain ⟨hk, hmv⟩ := hkv
  refine ⟨hk, ?_⟩
  intro o
  rw [hmv]
  simp

/-- Witness for C1 at a concrete record missing its account field and
transaction date. -/
theorem C1_missing_fields_skip_witness :
    fieldMissing rawMissing.account ∧
    map "R9" (.parsed rawMissing) =
      .writes [("SKIPPED_RECORDS", .entry (mkSkippedEntry "R9" rawMissing (missingFields rawMissing)))] :=
  ⟨by decide, (C1_missing_fields_skip "R9" rawMissing (Or.inl (by decide))).1⟩

/-- Claim C2: for an ordinary group whose template lookup succeeds, a
failed email send leaves every notified flag unset, a successful send
with succeeding saves sets the flag of every payment of the group (in
order), and any flag update at all implies the send succeeded. -/
theorem C2_send_gates_flags (env : ReduceEnv) (key : String) (values : List MRValue)
    (hk : isReserved key = false)
    (ht : ∃ tid, env.templateLookup (parsedAccountId key) = some tid) :
    (env.sendOk = false → (reduce env key values).flagUpdates = []) ∧
    (env.sendOk = true → (∀ t ∈ ordersOf values, env.saveOk t = true) →
      (reduce env key values).flagUpdates = ordersOf values) ∧
    ((reduce env key values).flagUpdates ≠ [] → env.sendOk = true) := by
  obtain ⟨tid, ht⟩ := ht
  refine ⟨?_, ?_, ?_⟩
  · intro hs
    simp [reduce, hk, ht, hs]
  · intro hs hsave
    simp [reduce, hk, ht, hs, applySaves_all_ok env.saveOk (ordersOf values) hsave]
  · intro hne
    cases hs : env.sendOk with
    | true => rfl
    | false => exact absurd (by simp [reduce, hk, ht, hs]) hne

/-- Witness for C2 at a one-payment group with all collaborators
succeeding. -/
theorem C2_send_gates_flags_witness :
    isReserved "1_2" = false ∧
    envAllOk.templateLookup (parsedAccountId "1_2") = some "77" ∧
    (reduce envAllOk "1_2" [.order ordA]).flagUpdates = ordersOf [.order ordA] :=
  ⟨by decide, rfl,
    (C2_send_gates_flags envAllOk "1_2" [.order ordA] (by decide) ⟨"77", rfl⟩).2.1 rfl
      (by decide)⟩

/-- Claim C3: when the account of an ordinary group has no email-template
mapping, the group produces no sent email, no flag update and no output;
the template error is logged (in searchRelatedEmailTemplate and again by
the outer reduce catch); and the reduce stage still processes every other
group of the run unchanged. -/
theorem C3_template_missing (env : ReduceEnv) (key : String) (values : List MRValue)
    (hk : isReserved key = false)
    (ht : env.templateLookup (parsedAccountId key) = none) :
    (reduce env key values).sentEmails = [] ∧
    (reduce env key values).flagUpdates = [] ∧
    (reduce env key values).output = [] ∧
    "searchRelatedEmailTemplate" ∈ (reduce env key values).logs ∧
    "reduce" ∈ (reduce env key values).logs ∧
    ∀ pre post : List (String × List MRValue),
      runReduceEffects env (pre ++ (key, values) :: post) =
        runReduceEffects env pre ++ reduce env key values :: runReduceEffects env post := by
  refine ⟨?_, ?_, ?_, ?_, ?_, ?_⟩ <;> simp [reduce, hk, ht, runReduceEffects]

/-- Witness for C3 at a one-payment group with no template mapping. -/
theorem C3_template_missing_witness :
    isReserved "1_2" = false ∧
    envNoTemplate.templateLookup (parsedAccountId "1_2") = none ∧
    (reduce envNoTemplate "1_2" [.order ordA]).sentEmails = [] ∧
    (reduce envNoTemplate "1_2" [.order ordA]).flagUpdates = [] :=
  ⟨by decide, rfl,
    (C3_template_missing envNoTemplate "1_2" [.order ordA] (by decide) rfl).1,
    (C3_template_missing envNoTemplate "1_2" [.order ordA] (by decide) rfl).2.1⟩

/-- Claim C4 counterexample: a run with three skipped records and one
successfully emailed ordinary group has successfullyProcessed + skipped +
errors = 0 + 3 + 0 = 3, while the reduce stage wrote exactly one distinct
output key (SKIPPED_RECORDS) and received exactly two distinct group keys,
so the claimed equation fails on both readings of the key count. -/
theorem C4_counterexample :
    (summaryReport (runReduceOutput envAllOk groupsMixed)).successfullyProcessed +
      (summaryReport (runReduceOutput envAllOk groupsMixed)).skippedCount +
      (summaryReport (runReduceOutput envAllOk groupsMixed)).errorCount = 3 ∧
    ((runReduceOutput envAllOk groupsMixed).map Prod.fst).dedup.length = 1 ∧
    (groupsMixed.map Prod.fst).dedup.length = 2 ∧
    (reduce envAllOk "1_2" [.order ordA]).sentEmails.length = 1 ∧
    (3 : Nat) ≠ 1 ∧ (3 : Nat) ≠ 2 := by decide

/-- Claim C4 (amended): successfullyProcessed plus the number of distinct
reserved bucket keys present in the reduce output equals the total number
of distinct keys the reduce stage produced, because ordinary group keys
produce no reduce output at all. -/
theorem C4_amended_key_count (env : ReduceEnv) (groups : List (String × List MRValue)) :
    (summaryReport (runReduceOutput env groups)).successfullyProcessed +
      (((runReduceOutput env groups).map Prod.fst).filter isReserved).dedup.length =
    ((runReduceOutput env groups).map Prod.fst).dedup.length := by
  have hall : ∀ k ∈ (runReduceOutput env groups).map Prod.fst, isReserved k = true := by
    intro k hkm
    rw [List.mem_map] at hkm
    obtain ⟨kv, hkv, hk⟩ := hkm
    rw [← hk]
    exact runReduceOutput_keys env groups kv hkv
  rw [List.filter_eq_self.mpr hall, summaryReport_processed_zero env groups]
  exact Nat.zero_add _

/-- Claim C5 (code bug evaluation): on a malformed record — an unparseable
value or a parsed body with no values object — the map stage raises
ReferenceError out of the function (the catch block reads the
try-block-scoped `values`), and writes nothing, in particular no
ERROR_RECORDS entry. -/
theorem C5_map_raises :
    map "R1" .unparseable = .raised .referenceError ∧
    map "R1" .noValues = .raised .referenceError ∧
    outcomeWrites (map "R1" .unparseable) = [] :=
  ⟨rfl, rfl, rfl⟩

/-- Claim C6: in a two-payment group whose template resolves and whose
send succeeds, when voucher rendering fails for exactly one of the two
payments, the failure is logged, the failed voucher is omitted, and
exactly one email carrying exactly one attachment is sent. -/
theorem C6_partial_render (env : ReduceEnv) (key : String) (a b : PaymentOrder)
    (hk : isReserved key = false)
    (ht : ∃ tid, env.templateLookup (parsedAccountId key) = some tid)
    (hsend : env.sendOk = true)
    (hne : env.renderOk a.orderId ≠ env.renderOk b.orderId) :
    (reduce env key [.order a, .order b]).sentEmails.length = 1 ∧
    (∀ e ∈ (reduce env key [.order a, .order b]).sentEmails, e.attachments.length = 1) ∧
    (env.renderOk a.orderId = false →
      ("Error generating PDF for transaction " ++ a.orderId) ∈
        (reduce env key [.order a, .order b]).logs) ∧
    (env.renderOk b.orderId = false →
      ("Error generating PDF for transaction " ++ b.orderId) ∈
        (reduce env key [.order a, .order b]).logs) := by
  obtain ⟨tid, ht⟩ := ht
  cases hra : env.renderOk a.orderId <;> cases hrb : env.renderOk b.orderId
  · exact absurd (hra.trans hrb.symm) hne
  · refine ⟨?_, ?_, ?_, ?_⟩ <;>
      simp [reduce, hk, ht, hsend, ordersOf, generateIndividualPaymentVoucher,
        renderFailureLogs, hra, hrb]
  · refine ⟨?_, ?_, ?_, ?_⟩ <;>
      simp [reduce, hk, ht, hsend, ordersOf, generateIndividualPaymentVoucher,
        renderFailureLogs, hra, hrb]
  · exact absurd (hra.trans hrb.symm) hne

/-- Witness for C6 at a two-payment group where only the first payment
renders. -/
theorem C6_partial_render_witness :
    isReserved "1_2" = false ∧
    envPartialRender.renderOk ordA.orderId = true ∧
    envPartialRender.renderOk ordB.orderId = false ∧
    (reduce envPartialRender "1_2" [.order ordA, .order ordB]).sentEmails.length = 1 :=
  ⟨by decide, by decide, by decide,
    (C6_partial_render envPartialRender "1_2" ordA ordB (by decide) ⟨"77", rfl⟩ rfl
      (by decide)).1⟩

/-- Claim C7 counterexample: a run configured with only the three script
parameters the code actually reads proceeds past getInputData even though
no operational-report recipient address is configured anywhere — that
recipient is the hard-coded constant OPERATIONAL_REPORT_RECIPIENT, not a
validated fourth parameter. -/
theorem C7_counterexample :
    getInputData ⟨"srch", "tmpl", "auth"⟩ (.ok ()) = .ok "srch" ∧
    missingParams ⟨"srch", "tmpl", "auth"⟩ = [] ∧
    OPERATIONAL_REPORT_RECIPIENT = "admin@yourcompany.com" :=
  ⟨rfl, rfl, rfl⟩

/-- Claim C7 (amended): if any of the three required script parameters
(eligible-payments search id, print template id, email author) is absent,
getInputData aborts before the search is touched with an error whose
message joins the display names of exactly the missing parameters. -/
theorem C7_missing_params (c : Config) (lr : Except String Unit)
    (h : missingParams c ≠ []) :
    getInputData c lr = .error ("Required script parameter(s) not configured: " ++
      String.intercalate ", " (missingParams c)) ∧
    ("Eligible ACH Payments Search" ∈ missingParams c ↔ c.searchId = "") ∧
    ("Print Template ID" ∈ missingParams c ↔ c.printTemplateId = "") ∧
    ("Email Author" ∈ missingParams c ↔ c.authorId = "") := by
  refine ⟨?_, ?_, ?_, ?_⟩
  · simp [getInputData, List.length_pos.mpr h]
  · by_cases h1 : c.searchId = "" <;> by_cases h2 : c.printTemplateId = "" <;>
      by_cases h3 : c.authorId = "" <;> simp [missingParams, h1, h2, h3]
  · by_cases h1 : c.searchId = "" <;> by_cases h2 : c.printTemplateId = "" <;>
      by_cases h3 : c.authorId = "" <;> simp [missingParams, h1, h2, h3]
  · by_cases h1 : c.searchId = "" <;> by_cases h2 : c.printTemplateId = "" <;>
      by_cases h3 : c.authorId = "" <;> simp [missingParams, h1, h2, h3]

/-- Witness for C7 (amended) at a configuration missing the search id and
the email author. -/
theorem C7_missing_params_witness :
    missingParams ⟨"", "tmpl", ""⟩ ≠ [] ∧
    getInputData ⟨"", "tmpl", ""⟩ (.ok ()) =
      .error ("Required script parameter(s) not configured: " ++
        String.intercalate ", " (missingParams ⟨"", "tmpl", ""⟩)) :=
  ⟨by decide, (C7_missing_params ⟨"", "tmpl", ""⟩ (.ok ()) (by decide)).1⟩

/-- Claim C8 counterexample: in a two-payment group whose send succeeds,
a save failure on the first payment aborts the whole update loop, so the
second payment — whose own save would succeed — never gets its flag set,
contradicting per-payment recovery. -/
theorem C8_counterexample :
    envSaveFail.sendOk = true ∧
    envSaveFail.saveOk ordA.orderId = false ∧
    envSaveFail.saveOk ordB.orderId = true ∧
    (reduce envSaveFail "1_2" [.order ordA, .order ordB]).sentEmails.length = 1 ∧
    ordB.orderId ∉ (reduce envSaveFail "1_2" [.order ordA, .order ordB]).flagUpdates := by
  decide

/-- Claim C8 (amended): a persistence failure on one payment of a group
whose send succeeded is caught by the group-level send/update catch: it is
logged (the sendEmail error log) and not retried, the email is not
un-sent, the payments saved before the failing one keep their flags, and
the payments after the failing one are not updated. -/
theorem C8_persistence_failure (env : ReduceEnv) (key : String) (values : List MRValue)
    (t : String) (pre post : List String)
    (hk : isReserved key = false)
    (ht : ∃ tid, env.templateLookup (parsedAccountId key) = some tid)
    (hsend : env.sendOk = true)
    (hsplit : ordersOf values = pre ++ t :: post)
    (hpre : ∀ p ∈ pre, env.saveOk p = true)
    (hfail : env.saveOk t = false) :
    (reduce env key values).flagUpdates = pre ∧
    (reduce env key values).sentEmails.length = 1 ∧
    "sendEmail" ∈ (reduce env key values).logs := by
  obtain ⟨tid, ht⟩ := ht
  have hsave := applySaves_fail_at env.saveOk t post hfail pre hpre
  refine ⟨?_, ?_, ?_⟩ <;> simp [reduce, hk, ht, hsend, hsplit, hsave]

/-- Witness for C8 (amended) at a two-payment group whose first save
fails. -/
theorem C8_persistence_failure_witness :
    ordersOf [.order ordA, .order ordB] = [] ++ ordA.orderId :: [ordB.orderId] ∧
    envSaveFail.saveOk ordA.orderId = false ∧
    (reduce envSaveFail "1_2" [.order ordA, .order ordB]).flagUpdates = [] :=
  ⟨by decide, by decide,
    (C8_persistence_failure envSaveFail "1_2" [.order ordA, .order ordB] ordA.orderId
      [] [ordB.orderId] (by decide) ⟨"77", rfl⟩ rfl (by decide) (by decide) (by decide)).1⟩

/-- Claim C9 counterexample: the valid record whose account id is the
string 1_2 and whose vendor id is 3 normalizes to groupKey 1_2_3, but the
reduce parse recovers accountId 1 and vendorId 2, not the original pair,
so the round-trip fails for valid records whose ids contain the
separator. -/
theorem C9_counterexample :
    missingFields rawUnderscore = [] ∧
    map "R7" (.parsed rawUnderscore) =
      .writes [("1_2_3", .order (normalizedOrder "R7" rawUnderscore))] ∧
    accountValue rawUnderscore = "1_2" ∧
    parsedAccountId "1_2_3" = "1" ∧
    parsedVendorId "1_2_3" = "2" ∧
    ("1" : String) ≠ "1_2" := by decide

/-- Claim C9 (amended): every valid raw record normalizes to a
PaymentOrder written under the key accountId_vendorId; when the account
and vendor ids contain no underscore (as numeric internal ids do not),
the reduce parse of that key recovers exactly the original pair; and any
two values written under one key land in the same group of the shuffle. -/
theorem C9_roundtrip :
    (∀ (key : String) (v : RawValues), missingFields v = [] →
      map key (.parsed v) =
        .writes [(accountValue v ++ "_" ++ entityValue v, .order (normalizedOrder key v))]) ∧
    (∀ a b : String, '_' ∉ a.data → '_' ∉ b.data →
      parsedAccountId (a ++ "_" ++ b) = a ∧ parsedVendorId (a ++ "_" ++ b) = b) ∧
    (∀ (l : List (String × MRValue)) (k : String) (x y : MRValue),
      (k, x) ∈ l → (k, y) ∈ l →
      ∃ g ∈ groupByKey l, g.1 = k ∧ x ∈ g.2 ∧ y ∈ g.2) := by
  refine ⟨?_, ?_, ?_⟩
  · intro key v hm
    simp [map, hm]
  · intro a b ha hb
    rw [parsedAccountId, parsedVendorId, jsSplit_pair a b ha hb]
    exact ⟨rfl, rfl⟩
  · intro l k x y hx hy
    exact groupByKey_mem_pair l k x y hx hy

/-- Witness for C9 (amended) at a concrete valid record for account 12
and vendor 34. -/
theorem C9_roundtrip_witness :
    missingFields rawValid = [] ∧
    map "R1" (.parsed rawValid) = .writes [("12_34", .order (normalizedOrder "R1" rawValid))] ∧
    parsedAccountId ("12" ++ "_" ++ "34") = "12" := by
  refine ⟨by decide, ?_, ?_⟩
  · exact (C9_roundtrip.1 "R1" rawValid (by decide)).trans (by decide)
  · exact (C9_roundtrip.2.1 "12" "34" (by decide) (by decide)).1

/-- Claim C10: the reduce stage writes output only under the two reserved
keys — an ordinary group key produces no reduce output — and therefore
the report's successfullyProcessed count is 0 on every run, however many
groups were emailed. -/
theorem C10_reduce_output_reserved :
    (∀ (env : ReduceEnv) (key : String) (values : List MRValue),
      (∀ kv ∈ (reduce env key values).output, isReserved kv.1 = true) ∧
      (isReserved key = false → (reduce env key values).output = [])) ∧
    (∀ (env : ReduceEnv) (groups : List (String × List MRValue)),
      (summaryReport (runReduceOutput env groups)).successfullyProcessed = 0) :=
  ⟨fun env key values =>
    ⟨reduce_output_keys env key values, reduce_output_nil env key values⟩,
   fun env groups => summaryReport_processed_zero env groups⟩

/-- Witness for C10 at a concrete run with one emailed group and one
skipped bucket. -/
theorem C10_reduce_output_reserved_witness :
    isReserved "1_2" = false ∧
    (reduce envAllOk "1_2" [.order ordA]).output = [] ∧
    (summaryReport (runReduceOutput envAllOk groupsMixed)).successfullyProcessed = 0 :=
  ⟨by decide, (C10_reduce_output_reserved.1 envAllOk "1_2" [.order ordA]).2 (by decide),
    C10_reduce_output_reserved.2 envAllOk groupsMixed⟩

end OHS27
